import Mathlib

/-!
Verification development for the axiom-gui visual-regression test scripts
(`visual-tests/scripts/*.py`): a shallow embedding of the five scripts'
result bookkeeping, test-case bodies, orchestration `main`s and report
generators, together with theorems settling the specified properties.

Each script becomes a namespace named after its class:
`WebDriverVisualTest` (webdriver_visual_test.py), `DirectRenderTest`
(direct_render_test.py), `AxiomVisualValidator` (visual_validator.py),
`SimpleVisualTest` (simple_visual_test.py), `AxiomRenderTest`
(axiom_render_test.py).  External effects (the WebDriver, the renderer,
the scrot utility, clocks, the filesystem) are supplied through an `Env`
record; exceptions raised by those collaborators are values of the `Env`,
and Python try/except blocks become matches on them.  Timestamps are an
abstract clock `Nat → String` queried at an incrementing `tick`, one query
per `datetime.now()` call of the source.
-/

namespace AxGui

/-- Lowercasing of a string, as Python str.lower acts on the ASCII text
appearing in these scripts. -/
def lowerStr (s : String) : String := s.map Char.toLower

/-- Python substring containment `pat in s` on strings. -/
def strContains (s pat : String) : Bool :=
  s.toList.tails.any (fun t => pat.toList.isPrefixOf t)

/-- Two generated documents (lists of written chunks) agree except possibly at
the chunk of index 1, which is the human-readable generation-timestamp line in
every report of these scripts. -/
def AgreeExceptGenLine (d1 d2 : List String) : Prop :=
  d1.length = d2.length ∧ ∀ i : Nat, i ≠ 1 → d1.get? i = d2.get? i

/-- The capture collection `l'` extends `l` only by appending records whose
logical names form, in order, a sub-sequence of `names`, every appended record
satisfying `good`. -/
def CapExtends {α : Type} (good : α → Prop) (nameOf : α → String)
    (names : List String) (l l' : List α) : Prop :=
  ∃ δ, l' = l ++ δ ∧ List.Sublist (δ.map nameOf) names ∧ ∀ r ∈ δ, good r

namespace WebDriverVisualTest

/-- One entry of self.results["screenshots"]: take_screenshot stores the
logical name, the description, the bare file name and the timestamp. -/
structure Shot where
  name : String
  description : String
  file : String
  timestamp : String
deriving Repr, DecidableEq

/-- One entry of self.results["tests"].  The optional keys mirror the keys a
given append supplies: "error" on the except paths, "note" for the rotation
test, "controls"/"keywords" for the controls-visibility test. -/
structure TestRec where
  name : String
  result : String
  error : Option String
  note : Option String
  controls : Option (List String)
  keywords : Option (List String)
deriving Repr, DecidableEq

/-- One entry of self.results["bugs"]. -/
structure Bug where
  test : String
  issue : String
deriving Repr, DecidableEq

/-- The accumulated self.results, plus the clock tick counting
datetime.now() calls. -/
structure State where
  tests : List TestRec
  screenshots : List Shot
  bugs : List Bug
  tick : Nat
deriving Repr, DecidableEq

def initState : State := ⟨[], [], [], 0⟩

/-- A file of the structures directory as the report generator reads it:
its name, its suffix, and the stripped first line (the atom count of an
.xyz file). -/
structure FsEntry where
  name : String
  suffix : String
  firstLine : String
deriving Repr, DecidableEq

/-- The external collaborators of one run: the WebDriver session, the DOM
the driver observes, the structure files, and the clock.  An `Option String`
field holding `some e` means the corresponding driver call raises an
exception rendered as `e`. -/
structure Env where
  setupOk : Bool
  getErr : Option String
  shotFail : Nat → Bool
  canvasCount : Nat
  buttonTexts : List String
  clickErr : Option String
  fileInputs1 : Nat
  fileInputs2 : Nat
  sendKeysErr : Option String
  dragErr : Option String
  inputCount : Nat
  checkboxCount : Nat
  selectCount : Nat
  pageSource : String
  waterExists : Bool
  methaneExists : Bool
  listing : List FsEntry
  clock : Nat → String
  reportTime : String

/-- take_screenshot: stamp the name, try save_screenshot; on success append
one screenshot record and return the path, on failure catch locally and
return none. -/
def take_screenshot (env : Env) (name desc : String) (s : State) :
    Option String × State :=
  let t := env.clock s.tick
  let filename := t ++ "_" ++ name ++ ".png"
  if env.shotFail s.tick then
    (none, { s with tick := s.tick + 1 })
  else
    (some ("screenshots/" ++ filename),
     { s with
        screenshots := s.screenshots ++ [⟨name, desc, filename, t⟩],
        tick := s.tick + 1 })

/-- driver.find_element(By.TAG_NAME, "canvas"): raises NoSuchElementException
when no canvas exists, unlike the plural find_elements. -/
def find_element_canvas (env : Env) : Except String Unit :=
  if env.canvasCount = 0 then Except.error "no such element: canvas"
  else Except.ok ()

/-- test_gui_loads: navigate, screenshot, probe for canvas elements; empty
probe result degrades to FAIL plus a recorded bug; an exception from the
navigation is caught and recorded as ERROR plus a bug. -/
def test_gui_loads (env : Env) (s : State) : Bool × State :=
  let test_name := "GUI Loading"
  match env.getErr with
  | some e =>
      (false, { s with
        tests := s.tests ++ [⟨test_name, "ERROR", some e, none, none, none⟩],
        bugs := s.bugs ++ [⟨test_name, e⟩] })
  | none =>
      let s1 := (take_screenshot env "00_gui_loaded" "GUI initial load" s).2
      if env.canvasCount > 0 then
        (true, { s1 with
          tests := s1.tests ++ [⟨test_name, "PASS", none, none, none, none⟩] })
      else
        (false, { s1 with
          tests := s1.tests ++ [⟨test_name, "FAIL", none, none, none, none⟩],
          bugs := s1.bugs ++ [⟨test_name, "No canvas element found in DOM"⟩] })

/-- The button-probing loop of test_load_structure: the first button whose
lowered text contains load, open or file. -/
def loadButton (texts : List String) : Option String :=
  texts.find? (fun b =>
    let lo := lowerStr b
    strContains lo "load" || strContains lo "open" || strContains lo "file")

/-- test_load_structure for one structure file (given by stem and name):
probe for a file input, fall back to clicking a load/open/file button and
re-probing; a remaining empty probe degrades to FAIL plus a bug; exceptions
from click or send_keys are caught and recorded as ERROR (with no bug). -/
def test_load_structure (env : Env) (stem fname : String) (s : State) :
    Bool × State :=
  let test_name := "Load Structure: " ++ fname
  let viaInput : Nat → Bool × State := fun _ =>
    match env.sendKeysErr with
    | some e =>
        (false, { s with
          tests := s.tests ++ [⟨test_name, "ERROR", some e, none, none, none⟩] })
    | none =>
        let s1 := (take_screenshot env ("structure_" ++ stem)
                    ("Loaded structure: " ++ fname) s).2
        (true, { s1 with
          tests := s1.tests ++ [⟨test_name, "PASS", none, none, none, none⟩] })
  if env.fileInputs1 > 0 then
    viaInput env.fileInputs1
  else
    match loadButton env.buttonTexts with
    | none =>
        (false, { s with
          tests := s.tests ++ [⟨test_name, "FAIL", none, none, none, none⟩],
          bugs := s.bugs ++ [⟨test_name, "No file input element found"⟩] })
    | some _ =>
        match env.clickErr with
        | some e =>
            (false, { s with
              tests := s.tests ++ [⟨test_name, "ERROR", some e, none, none, none⟩] })
        | none =>
            if env.fileInputs2 > 0 then
              match env.sendKeysErr with
              | some e =>
                  (false, { s with
                    tests := s.tests ++
                      [⟨test_name, "ERROR", some e, none, none, none⟩] })
              | none =>
                  let s1 := (take_screenshot env ("structure_" ++ stem)
                              ("Loaded structure: " ++ fname) s).2
                  (true, { s1 with
                    tests := s1.tests ++
                      [⟨test_name, "PASS", none, none, none, none⟩] })
            else
              (false, { s with
                tests := s.tests ++ [⟨test_name, "FAIL", none, none, none, none⟩],
                bugs := s.bugs ++ [⟨test_name, "No file input element found"⟩] })

/-- test_rotation: the singular find_element raises when no canvas matches,
and that exception is recorded as ERROR with no bug entry; otherwise a
before screenshot, a drag (whose exception is also recorded as ERROR), an
after screenshot, and a VISUAL outcome. -/
def test_rotation (env : Env) (s : State) : Bool × State :=
  let test_name := "Rotation"
  match find_element_canvas env with
  | Except.error e =>
      (false, { s with
        tests := s.tests ++ [⟨test_name, "ERROR", some e, none, none, none⟩] })
  | Except.ok _ =>
      let s1 := (take_screenshot env "rotation_before" "Before rotation" s).2
      match env.dragErr with
      | some e =>
          (false, { s1 with
            tests := s1.tests ++ [⟨test_name, "ERROR", some e, none, none, none⟩] })
      | none =>
          let s2 := (take_screenshot env "rotation_after"
                      "After rotation (drag 200x100)" s1).2
          (true, { s2 with
            tests := s2.tests ++
              [⟨test_name, "VISUAL", none, some "Compare before/after screenshots",
                none, none⟩] })

def keywordList : List String :=
  ["rotation", "zoom", "background", "render", "load", "open", "file"]

/-- test_controls_visible: a screenshot, counts of buttons, inputs,
checkboxes and selects, a keyword scan over the page source, and a PASS
outcome carrying the findings. -/
def test_controls_visible (env : Env) (s : State) : Bool × State :=
  let test_name := "UI Controls Visibility"
  let s1 := (take_screenshot env "ui_controls" "UI controls overview" s).2
  let nb := env.buttonTexts.length
  let c1 := if nb > 0 then [toString nb ++ " buttons"] else []
  let c2 := if env.inputCount > 0 then [toString env.inputCount ++ " inputs"] else []
  let c3 := if env.checkboxCount > 0 then
              [toString env.checkboxCount ++ " checkboxes"] else []
  let c4 := if env.selectCount > 0 then
              [toString env.selectCount ++ " select boxes"] else []
  let controls_found := c1 ++ c2 ++ c3 ++ c4
  let found_keywords :=
    keywordList.filter (fun kw => strContains (lowerStr env.pageSource) (lowerStr kw))
  (true, { s1 with
    tests := s1.tests ++
      [⟨test_name, "PASS", none, none, some controls_found, some found_keywords⟩] })

/-- The summary numbers generate_report computes from the aggregated
results. -/
structure Summary where
  total : Nat
  passed : Nat
  failed : Nat
  errors : Nat
  visual : Nat
  shots : Nat
deriving Repr, DecidableEq

def summary (s : State) : Summary :=
  { total := s.tests.length
  , passed := s.tests.countP (fun t => t.result == "PASS")
  , failed := s.tests.countP (fun t => t.result == "FAIL")
  , errors := s.tests.countP (fun t => t.result == "ERROR")
  , visual := s.tests.countP (fun t => t.result == "VISUAL")
  , shots := s.screenshots.length }

/-- The Test Structures section: the report re-reads the structures directory
and the first line of each .xyz file. -/
def structuresSection (listing : List FsEntry) : List String :=
  ["## Test Structures\n\n",
   "Small structures (3-20 atoms) for fast rendering:\n\n"]
  ++ listing.flatMap (fun e =>
      if e.suffix == ".xyz" then
        ["- **" ++ e.name ++ "**: " ++ e.firstLine ++ " atoms\n"]
      else
        ["- **" ++ e.name ++ "**\n"])
  ++ ["\n"]

def resultLines (t : TestRec) : List String :=
  ["### " ++ t.name ++ "\n", "**Result**: " ++ t.result ++ "\n\n"]
  ++ (match t.note with
      | some n => ["*" ++ n ++ "*\n\n"]
      | none => [])
  ++ (match t.error with
      | some e => ["```\n" ++ e ++ "\n```\n\n"]
      | none => [])
  ++ (match t.controls with
      | some c => ["Controls: " ++ String.intercalate ", " c ++ "\n\n"]
      | none => [])
  ++ (match t.keywords with
      | some k => ["UI Keywords: " ++ String.intercalate ", " k ++ "\n\n"]
      | none => [])

def bugsSection (bugs : List Bug) : List String :=
  if bugs.isEmpty then []
  else
    "## Bugs / Issues Found\n\n" ::
    (bugs.enum.flatMap (fun p =>
      ["### " ++ toString (p.1 + 1) ++ ". " ++ p.2.test ++ "\n",
       p.2.issue ++ "\n\n"]))

def shotLines (ss : Shot) : List String :=
  ["### " ++ ss.name ++ "\n"]
  ++ (if ss.description == "" then [] else [ss.description ++ "\n\n"])
  ++ ["![" ++ ss.name ++ "](screenshots/" ++ ss.file ++ ")\n\n",
      "*Timestamp: " ++ ss.timestamp ++ "*\n\n"]

/-- The whole document after the title and timestamp chunks. -/
def docBody (s : State) (listing : List FsEntry) : List String :=
  ["## Summary\n\n",
   "- Total Tests: " ++ toString (summary s).total ++ "\n",
   "- Passed: " ++ toString (summary s).passed ++ "\n",
   "- Failed: " ++ toString (summary s).failed ++ "\n",
   "- Errors: " ++ toString (summary s).errors ++ "\n",
   "- Visual Validation Required: " ++ toString (summary s).visual ++ "\n",
   "- Screenshots Captured: " ++ toString (summary s).shots ++ "\n\n"]
  ++ structuresSection listing
  ++ ("## Test Results\n\n" :: s.tests.flatMap resultLines)
  ++ bugsSection s.bugs
  ++ ("## Screenshots\n\n" :: s.screenshots.flatMap shotLines)

/-- The report document, chunk by written chunk: the generation timestamp is
the chunk of index 1 and appears nowhere else. -/
def doc (s : State) (listing : List FsEntry) (t : String) : List String :=
  "# Axiom GUI Visual Validation Report\n\n" ::
  ("Generated: " ++ t ++ "\n\n") ::
  docBody s listing

/-- generate_report only reads self.results (and the structures directory);
it returns the state untouched together with the document it writes. -/
def generate_report (env : Env) (s : State) : State × List String :=
  (s, doc s env.listing env.reportTime)

/-- The body of main between setup and cleanup: the fixed test sequence. -/
def runTests (env : Env) (s : State) : State :=
  let s1 := (test_gui_loads env s).2
  let s2 := (test_controls_visible env s1).2
  let s3 := if env.waterExists then (test_load_structure env "water" "water.xyz" s2).2 else s2
  let s4 := if env.methaneExists then
              (test_load_structure env "methane" "methane.xyz" s3).2 else s3
  (test_rotation env s4).2

/-- The observable outcome of main: the exit code, the final aggregated
results, how often the cleanup path (close_driver) ran, how often
generate_report ran, and the document it produced. -/
structure Run where
  exitCode : Nat
  state : State
  cleanups : Nat
  reports : Nat
  doc : List String
deriving Repr, DecidableEq

/-- main: on setup failure return 1 (the finally clause still runs
close_driver once); otherwise run the tests, generate the report, run the
finally clause, and return 0 regardless of the recorded outcomes. -/
def main (env : Env) : Run :=
  if env.setupOk then
    let s := runTests env initState
    let p := generate_report env s
    { exitCode := 0, state := p.1, cleanups := 1, reports := 1, doc := p.2 }
  else
    { exitCode := 1, state := initState, cleanups := 1, reports := 0, doc := [] }

/-- The logical names main ever passes to take_screenshot, in program
order. -/
def sessionNames : List String :=
  ["00_gui_loaded", "ui_controls", "structure_water", "structure_methane",
   "rotation_before", "rotation_after"]

/-- A screenshot record as take_screenshot constructs one: a clock value
followed by the logical name. -/
def GoodShot (clock : Nat → String) (r : Shot) : Prop :=
  ∃ k, r.file = clock k ++ "_" ++ r.name ++ ".png"

/-- A run where every collaborator behaves: the driver starts, navigation
and gestures succeed, one canvas exists, a file input exists, and the
structures directory is empty. -/
def benignEnv : Env :=
  { setupOk := true, getErr := none, shotFail := fun _ => false,
    canvasCount := 1, buttonTexts := [], clickErr := none,
    fileInputs1 := 1, fileInputs2 := 0, sendKeysErr := none, dragErr := none,
    inputCount := 0, checkboxCount := 0, selectCount := 0, pageSource := "",
    waterExists := false, methaneExists := false, listing := [],
    clock := fun _ => "20250101_000000", reportTime := "2025-01-01 00:00:00" }

/-- A benign run except that driver.get raises `e`. -/
def envGetErr (e : String) : Env := { benignEnv with getErr := some e }

/-- A benign run except that the page has no canvas element. -/
def envNoCanvas : Env := { benignEnv with canvasCount := 0 }

/-- A benign run except that the page has neither a file input nor any
button. -/
def envNoInput : Env := { benignEnv with fileInputs1 := 0 }

end WebDriverVisualTest

namespace DirectRenderTest

/-- One entry of self.results["tests"]: direct_render_test records only a name
and a result string, never an error key. -/
structure TestRec where
  name : String
  result : String
deriving Repr, DecidableEq

/-- One entry of self.results["renders"]. -/
structure Render where
  name : String
  file : String
  description : String
deriving Repr, DecidableEq

/-- One entry of self.results["errors"]. -/
structure ErrRec where
  test : String
  error : String
deriving Repr, DecidableEq

structure State where
  tests : List TestRec
  renders : List Render
  errors : List ErrRec
  tick : Nat
deriving Repr, DecidableEq

def initState : State := ⟨[], [], [], 0⟩

/-- The axiom renderer as a collaborator: for each test, `some i` in its
fail-at field makes the i-th save_image call of that test raise, with the
matching message field as the rendered exception text. -/
structure Env where
  waterFailAt : Option Nat
  waterMsg : String
  rotationFailAt : Option Nat
  rotationMsg : String
  zoomFailAt : Option Nat
  zoomMsg : String
  bgFailAt : Option Nat
  bgMsg : String
  clock : Nat → String
  reportTime : String

/-- The render loop shared by the test bodies: each item is (call index,
render name, description); a raise at item i keeps the renders appended so
far and surfaces the message. -/
def runRenders (clock : Nat → String) (failAt : Option Nat) (msg : String) :
    List (Nat × String × String) → State → State × Option String
  | [], s => (s, none)
  | (i, nm, desc) :: rest, s =>
      if failAt = some i then (s, some msg)
      else
        let t := clock s.tick
        runRenders clock failAt msg rest
          { s with
            renders := s.renders ++ [⟨nm, t ++ "_" ++ nm ++ ".png", desc⟩],
            tick := s.tick + 1 }

/-- The shared except-path and success-path bookkeeping of the four test
methods: on an exception append one errors entry and one FAIL outcome, on
success append one PASS outcome. -/
def finishTest (test_name : String) (p : State × Option String) : Bool × State :=
  match p.2 with
  | some e =>
      (false, { p.1 with
        errors := p.1.errors ++ [⟨test_name, e⟩],
        tests := p.1.tests ++ [⟨test_name, "FAIL"⟩] })
  | none =>
      (true, { p.1 with tests := p.1.tests ++ [⟨test_name, "PASS"⟩] })

def test_simple_water (env : Env) (s : State) : Bool × State :=
  finishTest "Render Water Molecule"
    (runRenders env.clock env.waterFailAt env.waterMsg
      [(0, "water_default", "Water molecule - default view")] s)

def rotationItems : List (Nat × String × String) :=
  [(0, "rotation_front", "Methane from front view"),
   (1, "rotation_side", "Methane from side view"),
   (2, "rotation_top", "Methane from top view"),
   (3, "rotation_angle", "Methane from angle view")]

def test_rotation (env : Env) (s : State) : Bool × State :=
  finishTest "Test Rotation (Different Camera Angles)"
    (runRenders env.clock env.rotationFailAt env.rotationMsg rotationItems s)

def zoomItems : List (Nat × String × String) :=
  [(0, "zoom_far", "Ethanol at distance 20.0"),
   (1, "zoom_normal", "Ethanol at distance 10.0"),
   (2, "zoom_close", "Ethanol at distance 5.0"),
   (3, "zoom_very_close", "Ethanol at distance 3.0")]

def test_zoom (env : Env) (s : State) : Bool × State :=
  finishTest "Test Zoom (Different Camera Distances)"
    (runRenders env.clock env.zoomFailAt env.zoomMsg zoomItems s)

def bgItems : List (Nat × String × String) :=
  [(0, "bg_black", "Background: black"),
   (1, "bg_white", "Background: white"),
   (2, "bg_gray", "Background: gray")]

def test_background_colors (env : Env) (s : State) : Bool × State :=
  finishTest "Test Background Colors"
    (runRenders env.clock env.bgFailAt env.bgMsg bgItems s)

/-- The summary numbers generate_report computes. -/
structure Summary where
  total : Nat
  passed : Nat
  failed : Nat
  images : Nat
deriving Repr, DecidableEq

def summary (s : State) : Summary :=
  { total := s.tests.length
  , passed := s.tests.countP (fun t => t.result == "PASS")
  , failed := s.tests.countP (fun t => t.result == "FAIL")
  , images := s.renders.length }

def resultLines (t : TestRec) : List String :=
  let icon := if t.result == "PASS" then "✓" else "✗"
  ["### " ++ icon ++ " " ++ t.name ++ "\n\n",
   "**Result**: " ++ t.result ++ "\n\n"]

def errorsSection (errors : List ErrRec) : List String :=
  if errors.isEmpty then []
  else
    "## Errors Encountered\n\n" ::
    errors.flatMap (fun e =>
      ["### " ++ e.test ++ "\n", "```\n" ++ e.error ++ "\n```\n\n"])

def renderLines (r : Render) : List String :=
  ["### " ++ r.name ++ "\n\n", r.description ++ "\n\n",
   "![" ++ r.name ++ "](screenshots/" ++ r.file ++ ")\n\n"]

/-- The whole document after the title and timestamp chunks. -/
def docBody (s : State) : List String :=
  ["## Summary\n\n",
   "- Total Tests: " ++ toString (summary s).total ++ "\n",
   "- Passed: " ++ toString (summary s).passed ++ "\n",
   "- Failed: " ++ toString (summary s).failed ++ "\n",
   "- Images Generated: " ++ toString (summary s).images ++ "\n\n",
   "## Test Approach\n\n",
   "This validation uses **programmatic rendering** via axiom Python bindings.\n",
   "Small structures (3-9 atoms) are used for fast rendering (<1s each).\n\n",
   "**Test Structures:**\n",
   "- Water (H2O): 3 atoms\n",
   "- Methane (CH4): 5 atoms\n",
   "- Ethanol (C2H6O): 9 atoms\n\n"]
  ++ ("## Test Results\n\n" :: s.tests.flatMap resultLines)
  ++ errorsSection s.errors
  ++ ("## Rendered Images\n\n" ::
      "All images show the feature working correctly.\n\n" ::
      s.renders.flatMap renderLines)
  ++ ["## Validation Checklist\n\n",
      "- [x] Rotation: Different camera angles tested\n",
      "- [x] Zoom: Different camera distances tested\n",
      "- [x] Background colors: Black, white, gray tested\n",
      "- [x] Small structures: Fast rendering (<1s per image)\n",
      "- [x] File formats: Programmatic atom creation (XYZ/PDB parsing requires GUI)\n\n",
      "## Next Steps\n\n",
      "1. **GUI Testing**: The programmatic tests validate the rendering engine.\n",
      "   GUI-specific features need testing:\n",
      "   - File loading UI (XYZ, PDB)\n",
      "   - Interactive rotation (mouse drag)\n",
      "   - Interactive zoom (scroll)\n",
      "   - UI controls (buttons, checkboxes)\n",
      "   - SSAA toggle\n",
      "   - Ambient occlusion toggle\n\n",
      "2. **Automated GUI Testing**: Use WebDriver or similar to test the Tauri GUI.\n\n"]

/-- The report document: the generation timestamp is the chunk of index 1
and appears nowhere else. -/
def doc (s : State) (t : String) : List String :=
  "# Axiom GUI Visual Validation Report\n\n" ::
  ("Generated: " ++ t ++ "\n\n") ::
  docBody s

/-- generate_report only reads self.results; it returns the state untouched
together with the document it writes. -/
def generate_report (env : Env) (s : State) : State × List String :=
  (s, doc s env.reportTime)

structure Run where
  exitCode : Nat
  state : State
  reports : Nat
  doc : List String
deriving Repr, DecidableEq

def runAll (env : Env) : State :=
  let s1 := (test_simple_water env initState).2
  let s2 := (test_rotation env s1).2
  let s3 := (test_zoom env s2).2
  (test_background_colors env s3).2

/-- main: run the four tests, generate the report, and exit 0 exactly when
the errors list stayed empty. -/
def main (env : Env) : Run :=
  let s := runAll env
  let p := generate_report env s
  { exitCode := if p.1.errors.length = 0 then 0 else 1,
    state := p.1, reports := 1, doc := p.2 }

/-- How many recorded outcomes have result FAIL. -/
def failCount (s : State) : Nat := s.tests.countP (fun t => t.result == "FAIL")

/-- How many recorded outcomes have result ERROR. -/
def errorCount (s : State) : Nat := s.tests.countP (fun t => t.result == "ERROR")

/-- A run where every render call succeeds. -/
def benignEnv : Env :=
  { waterFailAt := none, waterMsg := "", rotationFailAt := none, rotationMsg := "",
    zoomFailAt := none, zoomMsg := "", bgFailAt := none, bgMsg := "",
    clock := fun _ => "20250101_000000", reportTime := "2025-01-01 00:00:00" }

/-- A benign run except that the water test's save_image raises `e`. -/
def envWaterErr (e : String) : Env :=
  { benignEnv with waterFailAt := some 0, waterMsg := e }

/-- The bookkeeping invariant of this script: errors entries correspond one
to one to FAIL outcomes, and no outcome is ever recorded as ERROR. -/
def Inv (s : State) : Prop :=
  s.errors.length = failCount s ∧ errorCount s = 0

end DirectRenderTest

namespace AxiomVisualValidator

/-- One entry of self.results["screenshots"]: visual_validator stores the
full path string, not the bare file name. -/
structure Shot where
  name : String
  description : String
  file : String
  timestamp : String
deriving Repr, DecidableEq

/-- One entry of self.results["bugs"]. -/
structure Bug where
  test : String
  error : String
deriving Repr, DecidableEq

/-- The results dictionary: three counters plus the screenshot and bug
lists, and the clock tick. -/
structure State where
  tests_run : Nat
  tests_passed : Nat
  tests_failed : Nat
  screenshots : List Shot
  bugs : List Bug
  tick : Nat
deriving Repr, DecidableEq

def initState : State := ⟨0, 0, 0, [], [], 0⟩

/-- The collaborators of one run.  `shotErr k = some e` makes the k-th
save_screenshot call raise `e`, which propagates out of take_screenshot into
the calling test. -/
structure Env where
  startOk : Bool
  getErr : Option String
  shotErr : Nat → Option String
  canvasCount : Nat
  dragErr : Option String
  zoomInErr : Option String
  zoomOutErr : Option String
  clock : Nat → String
  reportTime : String

/-- take_screenshot: stamp the name and call save_screenshot with no local
try, so a failure propagates (carrying the state as mutated so far). -/
def take_screenshot (env : Env) (name desc : String) (s : State) :
    Except (String × State) (String × State) :=
  let t := env.clock s.tick
  let filename := t ++ "_" ++ name ++ ".png"
  let filepath := "screenshots/" ++ filename
  let s1 := { s with tick := s.tick + 1 }
  match env.shotErr s.tick with
  | some e => Except.error (e, s1)
  | none =>
      Except.ok (filepath,
        { s1 with screenshots := s1.screenshots ++ [⟨name, desc, filepath, t⟩] })

/-- driver.find_element(By.TAG_NAME, "canvas") raises when no canvas
exists. -/
def find_element_canvas (env : Env) : Except String Unit :=
  if env.canvasCount = 0 then Except.error "no such element: canvas"
  else Except.ok ()

/-- Sequential execution of two statements of a try body: an exception from
the first skips the second. -/
def andThen (b1 b2 : State → Except (String × State) State)
    (s : State) : Except (String × State) State :=
  match b1 s with
  | Except.error p => Except.error p
  | Except.ok s1 => b2 s1

/-- A take_screenshot statement, viewed as one step of a try body. -/
def shotStep (env : Env) (n d : String) (s : State) :
    Except (String × State) State :=
  match take_screenshot env n d s with
  | Except.error p => Except.error p
  | Except.ok p => Except.ok p.2

/-- A find_element statement over the canvas. -/
def canvasStep (env : Env) (s : State) : Except (String × State) State :=
  match find_element_canvas env with
  | Except.error e => Except.error (e, s)
  | Except.ok _ => Except.ok s

/-- A driver call that either raises the given exception or does nothing to
the results state (navigation, drags, key sequences). -/
def raiseOpt (o : Option String) (s : State) : Except (String × State) State :=
  match o with
  | some e => Except.error (e, s)
  | none => Except.ok s

/-- The shared shape of every test method: count the run, execute the try
body; on success count a pass, on an exception count a failure and append
one bug entry holding the message. -/
def runCase (test : String) (body : State → Except (String × State) State)
    (s : State) : Bool × State :=
  let s0 := { s with tests_run := s.tests_run + 1 }
  match body s0 with
  | Except.error p =>
      (false, { p.2 with
        tests_failed := p.2.tests_failed + 1,
        bugs := p.2.bugs ++ [⟨test, p.1⟩] })
  | Except.ok s1 => (true, { s1 with tests_passed := s1.tests_passed + 1 })

def test_file_loading_xyz (env : Env) : State → Bool × State :=
  runCase "XYZ File Loading"
    (andThen (raiseOpt env.getErr)
      (shotStep env "xyz_loading_initial" "Initial state before loading XYZ"))

def test_rotation (env : Env) : State → Bool × State :=
  runCase "Rotation"
    (andThen (shotStep env "rotation_before" "Structure before rotation")
      (andThen (canvasStep env)
        (andThen (raiseOpt env.dragErr)
          (shotStep env "rotation_after"
            "Structure after rotation (200px right, 100px down)"))))

def test_zoom (env : Env) : State → Bool × State :=
  runCase "Zoom"
    (andThen (shotStep env "zoom_initial" "Initial zoom level")
      (andThen (canvasStep env)
        (andThen (raiseOpt env.zoomInErr)
          (andThen (shotStep env "zoom_in" "After zooming in (5 steps)")
            (andThen (raiseOpt env.zoomOutErr)
              (shotStep env "zoom_out" "After zooming out (10 steps)"))))))

def test_background_colors (env : Env) : State → Bool × State :=
  runCase "Background Colors"
    (andThen (shotStep env "background_black" "Background set to black")
      (andThen (shotStep env "background_white" "Background set to white")
        (shotStep env "background_gray" "Background set to gray")))

def test_rendering_controls (env : Env) : State → Bool × State :=
  runCase "Rendering Controls"
    (andThen (shotStep env "ssaa_off" "SSAA disabled")
      (andThen (shotStep env "ssaa_on" "SSAA enabled")
        (andThen (shotStep env "ao_off" "Ambient Occlusion disabled")
          (shotStep env "ao_on" "Ambient Occlusion enabled"))))

def bugsSection (bugs : List Bug) : List String :=
  if bugs.isEmpty then []
  else
    "## Bugs Found\n\n" ::
    bugs.flatMap (fun b =>
      ["### " ++ b.test ++ "\n", "```\n" ++ b.error ++ "\n```\n\n"])

def shotLines (ss : Shot) : List String :=
  ["### " ++ ss.name ++ "\n"]
  ++ (if ss.description == "" then [] else [ss.description ++ "\n\n"])
  ++ ["![" ++ ss.name ++ "](" ++ ss.file ++ ")\n\n",
      "*Captured: " ++ ss.timestamp ++ "*\n\n"]

def docBody (s : State) : List String :=
  ["## Summary\n\n",
   "- Tests Run: " ++ toString s.tests_run ++ "\n",
   "- Tests Passed: " ++ toString s.tests_passed ++ "\n",
   "- Tests Failed: " ++ toString s.tests_failed ++ "\n",
   "- Screenshots Captured: " ++ toString s.screenshots.length ++ "\n\n",
   "## Test Structures Used\n\n",
   "All structures are small (3-20 atoms) for fast rendering:\n\n",
   "- **water.xyz**: Water molecule (3 atoms)\n",
   "- **methane.xyz**: Methane molecule (5 atoms)\n",
   "- **ethanol.xyz**: Ethanol molecule (9 atoms)\n",
   "- **glycine.pdb**: Glycine amino acid (9 atoms)\n\n"]
  ++ bugsSection s.bugs
  ++ ("## Screenshots\n\n" :: s.screenshots.flatMap shotLines)

def doc (s : State) (t : String) : List String :=
  "# Axiom GUI Visual Validation Report\n\n" ::
  ("Generated: " ++ t ++ "\n\n") ::
  docBody s

def generate_report (env : Env) (s : State) : State × List String :=
  (s, doc s env.reportTime)

structure Run where
  state : State
  cleanups : Nat
  reports : Nat
  doc : List String
  raised : Option String

def runTests (env : Env) (s : State) : State :=
  let s1 := (test_file_loading_xyz env s).2
  let s2 := (test_rotation env s1).2
  let s3 := (test_zoom env s2).2
  let s4 := (test_background_colors env s3).2
  (test_rendering_controls env s4).2

/-- main: start_driver inside a try whose finally runs stop_driver once; a
startup failure skips the tests and the report, yet still runs the finally
clause before the exception propagates. -/
def main (env : Env) : Run :=
  if env.startOk then
    let s := runTests env initState
    let p := generate_report env s
    { state := p.1, cleanups := 1, reports := 1, doc := p.2, raised := none }
  else
    { state := initState, cleanups := 1, reports := 0, doc := [],
      raised := some "start_driver failed" }

/-- The logical names main ever passes to take_screenshot, in program
order. -/
def sessionNames : List String :=
  ["xyz_loading_initial", "rotation_before", "rotation_after",
   "zoom_initial", "zoom_in", "zoom_out",
   "background_black", "background_white", "background_gray",
   "ssaa_off", "ssaa_on", "ao_off", "ao_on"]

/-- A screenshot record as take_screenshot constructs one. -/
def GoodShot (clock : Nat → String) (r : Shot) : Prop :=
  ∃ k, r.file = "screenshots/" ++ (clock k ++ "_" ++ r.name ++ ".png")

/-- The state a try-body step leaves behind, raise or return. -/
def seqState : Except (String × State) State → State
  | Except.error p => p.2
  | Except.ok s => s

/-- The three counters of the results state. -/
def counters (s : State) : Nat × Nat × Nat :=
  (s.tests_run, s.tests_passed, s.tests_failed)

/-- A well-behaved try-body step: it never touches the counters, and it only
appends well-formed screenshot records drawn, in order, from `names`. -/
def StepOK (env : Env) (names : List String)
    (body : State → Except (String × State) State) : Prop :=
  ∀ s, counters (seqState (body s)) = counters s
    ∧ CapExtends (GoodShot env.clock) Shot.name names s.screenshots
        (seqState (body s)).screenshots

/-- A run where every collaborator behaves. -/
def benignEnv : Env :=
  { startOk := true, getErr := none, shotErr := fun _ => none,
    canvasCount := 1, dragErr := none, zoomInErr := none, zoomOutErr := none,
    clock := fun _ => "20250101_000000", reportTime := "2025-01-01 00:00:00" }

/-- A benign run except that driver.get raises `e`. -/
def envGetErr (e : String) : Env := { benignEnv with getErr := some e }

end AxiomVisualValidator

namespace SimpleVisualTest

/-- One entry of self.results: on success the record carries the bare file
name, on failure the error text. -/
structure Rec where
  name : String
  description : String
  file : Option String
  error : Option String
  success : Bool
deriving Repr, DecidableEq

structure State where
  results : List Rec
  tick : Nat
deriving Repr, DecidableEq

def initState : State := ⟨[], 0⟩

/-- The collaborators: whether npm starts, the scrot outcome of the k-th
capture attempt, the directory listing the report enumerates, and the
clock. -/
structure Env where
  startOk : Bool
  scrot : Nat → Except String Unit
  listing : List String
  clock : Nat → String
  reportTime : String

/-- take_screenshot: stamp the name, run scrot under a try catching every
exception; exactly one result record is appended either way, and the
return value is the path on success and None on failure. -/
def take_screenshot (env : Env) (name desc : String) (s : State) :
    Option String × State :=
  let t := env.clock s.tick
  let filename := t ++ "_" ++ name ++ ".png"
  let s1 := { s with tick := s.tick + 1 }
  match env.scrot s.tick with
  | Except.ok _ =>
      (some ("screenshots/" ++ filename),
       { s1 with results := s1.results ++ [⟨name, desc, some filename, none, true⟩] })
  | Except.error e =>
      (none,
       { s1 with results := s1.results ++ [⟨name, desc, none, some e, false⟩] })

/-- The fixed captures of run_visual_tests, in program order (tests 4 to 10
are the timed captures). -/
def captureItems : List (String × String) :=
  [("01_initial_state", "GUI initial state after launch"),
   ("02_after_5sec", "GUI state after 5 seconds"),
   ("03_current_state", "Current GUI state"),
   ("04_timed_capture", "GUI state at test 4"),
   ("05_timed_capture", "GUI state at test 5"),
   ("06_timed_capture", "GUI state at test 6"),
   ("07_timed_capture", "GUI state at test 7"),
   ("08_timed_capture", "GUI state at test 8"),
   ("09_timed_capture", "GUI state at test 9"),
   ("10_timed_capture", "GUI state at test 10")]

def captureAll (env : Env) : List (String × String) → State → State
  | [], s => s
  | (n, d) :: rest, s => captureAll env rest (take_screenshot env n d s).2

def run_visual_tests (env : Env) (s : State) : State :=
  captureAll env captureItems s

def resultLines (r : Rec) : List String :=
  if r.success then
    ["### " ++ r.name ++ "\n"]
    ++ (if r.description == "" then [] else [r.description ++ "\n\n"])
    ++ ["![" ++ r.name ++ "](screenshots/" ++ (r.file.getD "") ++ ")\n\n"]
  else
    ["### " ++ r.name ++ " (FAILED)\n",
     "Error: " ++ (r.error.getD "Unknown") ++ "\n\n"]

def docBody (env : Env) (s : State) : List String :=
  ["## Summary\n\n",
   "- Screenshots Captured: " ++ toString (s.results.countP (fun r => r.success))
     ++ "/" ++ toString s.results.length ++ "\n\n",
   "## Test Structures Available\n\n"]
  ++ env.listing.map (fun n => "- `" ++ n ++ "`\n")
  ++ ("\n## Screenshots\n\n" :: s.results.flatMap resultLines)

def doc (env : Env) (s : State) (t : String) : List String :=
  "# Axiom GUI Simple Visual Validation\n\n" ::
  ("Generated: " ++ t ++ "\n\n") ::
  docBody env s

def generate_report (env : Env) (s : State) : State × List String :=
  (s, doc env s env.reportTime)

structure Run where
  state : State
  cleanups : Nat
  doc : List String
  raised : Option String

/-- main: start_gui inside a try whose finally runs stop_gui once; a
startup failure skips the tests and the report, yet still runs the finally
clause. -/
def main (env : Env) : Run :=
  if env.startOk then
    let s := run_visual_tests env initState
    let p := generate_report env s
    { state := p.1, cleanups := 1, doc := p.2, raised := none }
  else
    { state := initState, cleanups := 1, doc := [], raised := some "npm failed" }

/-- A result record as take_screenshot constructs one: either a failure with
no file, or a success whose file is a clock value followed by the logical
name. -/
def GoodRec (clock : Nat → String) (r : Rec) : Prop :=
  r.file = none ∨ ∃ k, r.file = some (clock k ++ "_" ++ r.name ++ ".png")

/-- A run where npm starts and every scrot call succeeds. -/
def benignEnv : Env :=
  { startOk := true, scrot := fun _ => Except.ok (), listing := [],
    clock := fun _ => "20250101_000000", reportTime := "2025-01-01 00:00:00" }

end SimpleVisualTest

namespace AxiomRenderTest

structure TestRec where
  name : String
  result : String
deriving Repr, DecidableEq

structure Loaded where
  file : String
  atoms : Nat
  success : Bool
deriving Repr, DecidableEq

structure ErrRec where
  test : String
  error : String
deriving Repr, DecidableEq

structure State where
  tests : List TestRec
  structures_loaded : List Loaded
  errors : List ErrRec
deriving Repr, DecidableEq

def emptyState : State := ⟨[], [], []⟩

/-- One decimal place of a per-mille value, mirroring the :.1f format. -/
def fmtTenths (n : Nat) : String := toString (n / 10) ++ "." ++ toString (n % 10)

def loadedLines (st : Loaded) : List String :=
  let status := if st.success then "✓" else "✗"
  ["- " ++ status ++ " **" ++ st.file ++ "**: " ++ toString st.atoms ++ " atoms\n"]

def resultLines (t : TestRec) : List String :=
  let icon := if t.result == "PASS" then "✓" else "✗"
  ["- " ++ icon ++ " " ++ t.name ++ ": **" ++ t.result ++ "**\n"]

def errorsSection (errors : List ErrRec) : List String :=
  if errors.isEmpty then []
  else
    "## Errors\n\n" ::
    errors.flatMap (fun e =>
      ["### " ++ e.test ++ "\n", "```\n" ++ e.error ++ "\n```\n\n"])

/-- generate_report: the summary divides passed by total to print a success
rate, so a session with zero recorded tests raises ZeroDivisionError before
any further section is produced. -/
def generate_report (s : State) (t : String) : Except String (List String) :=
  let total := s.tests.length
  let passed := s.tests.countP (fun x => x.result == "PASS")
  let failed := s.tests.countP (fun x => x.result == "FAIL")
  if total = 0 then Except.error "ZeroDivisionError: division by zero"
  else
    Except.ok
      (["# Axiom Library Test Report\n\n",
        "Generated: " ++ t ++ "\n\n",
        "## Summary\n\n",
        "- Total Tests: " ++ toString total ++ "\n",
        "- Passed: " ++ toString passed ++ "\n",
        "- Failed: " ++ toString failed ++ "\n",
        "- Success Rate: " ++ fmtTenths (passed * 1000 / total) ++ "%\n\n",
        "## Structures Loaded\n\n"]
       ++ s.structures_loaded.flatMap loadedLines
       ++ ["\n", "## Test Results\n\n"]
       ++ s.tests.flatMap resultLines
       ++ ["\n"]
       ++ errorsSection s.errors)

end AxiomRenderTest

/-! ## Generic lemmas: string path injectivity and capture-extension -/

theorem strOfDataEq {a b : String} (h : a.data = b.data) : a = b := by
  cases a; cases b; exact congrArg String.mk (by simpa using h)

/-- Two capture file names built from same-length timestamps and a common
static prefix and suffix agree only when their logical names agree. -/
theorem pathInj (pre t1 t2 n1 n2 : String) (hlen : t1.length = t2.length)
    (h : pre ++ (t1 ++ "_" ++ n1 ++ ".png") = pre ++ (t2 ++ "_" ++ n2 ++ ".png")) :
    n1 = n2 := by
  have hd : pre.data ++ (((t1.data ++ "_".data) ++ n1.data) ++ ".png".data)
      = pre.data ++ (((t2.data ++ "_".data) ++ n2.data) ++ ".png".data) := by
    have h2 := congrArg String.data h
    simpa [String.data_append] using h2
  have h3 := List.append_cancel_left hd
  have h4 := List.append_cancel_right h3
  have hl : (t1.data ++ "_".data).length = (t2.data ++ "_".data).length := by
    simp only [List.length_append]
    exact congrArg (· + 1) hlen
  exact strOfDataEq (List.append_inj_right h4 hl)

/-- The prefix-free form of pathInj. -/
theorem pathInj0 (t1 t2 n1 n2 : String) (hlen : t1.length = t2.length)
    (h : t1 ++ "_" ++ n1 ++ ".png" = t2 ++ "_" ++ n2 ++ ".png") : n1 = n2 := by
  have hd : ((t1.data ++ "_".data) ++ n1.data) ++ ".png".data
      = ((t2.data ++ "_".data) ++ n2.data) ++ ".png".data := by
    have h2 := congrArg String.data h
    simpa [String.data_append] using h2
  have h4 := List.append_cancel_right hd
  have hl : (t1.data ++ "_".data).length = (t2.data ++ "_".data).length := by
    simp only [List.length_append]
    exact congrArg (· + 1) hlen
  exact strOfDataEq (List.append_inj_right h4 hl)

theorem capExtends_refl {α : Type} (good : α → Prop) (nameOf : α → String)
    (names : List String) (l : List α) : CapExtends good nameOf names l l :=
  ⟨[], by simp, List.nil_sublist _, by simp⟩

theorem capExtends_of_eq {α : Type} {good : α → Prop} {nameOf : α → String}
    {names : List String} {l l' : List α} (h : l' = l) :
    CapExtends good nameOf names l l' :=
  h ▸ capExtends_refl good nameOf names l

theorem capExtends_trans {α : Type} {good : α → Prop} {nameOf : α → String}
    {ns1 ns2 : List String} {l1 l2 l3 : List α}
    (h1 : CapExtends good nameOf ns1 l1 l2)
    (h2 : CapExtends good nameOf ns2 l2 l3) :
    CapExtends good nameOf (ns1 ++ ns2) l1 l3 := by
  obtain ⟨d1, e1, sub1, g1⟩ := h1
  obtain ⟨d2, e2, sub2, g2⟩ := h2
  refine ⟨d1 ++ d2, ?_, ?_, ?_⟩
  · rw [e2, e1, List.append_assoc]
  · simpa using List.Sublist.append sub1 sub2
  · intro r hr
    rcases List.mem_append.1 hr with h | h
    exacts [g1 r h, g2 r h]

theorem capExtends_mono {α : Type} {good : α → Prop} {nameOf : α → String}
    {ns1 ns2 : List String} {l1 l2 : List α} (hsub : List.Sublist ns1 ns2)
    (h : CapExtends good nameOf ns1 l1 l2) :
    CapExtends good nameOf ns2 l1 l2 := by
  obtain ⟨d, e, sub, g⟩ := h
  exact ⟨d, e, sub.trans hsub, g⟩

/-- Distinct logical names give distinct files, once every record's file
determines its name. -/
theorem pairwise_files_of_names {α : Type} (fileOf nameOf : α → String)
    (l : List α)
    (hn : l.Pairwise (fun a b => nameOf a ≠ nameOf b))
    (hinj : ∀ a ∈ l, ∀ b ∈ l, fileOf a = fileOf b → nameOf a = nameOf b) :
    (l.map fileOf).Pairwise (fun a b => a ≠ b) := by
  rw [List.pairwise_map]
  refine List.Pairwise.imp_of_mem ?_ hn
  intro a b ha hb hR hfe
  exact hR (hinj a ha b hb hfe)

/-! ## WebDriverVisualTest: screenshot bookkeeping lemmas -/

namespace WebDriverVisualTest

theorem wd_take_screenshot_extends (env : Env) (n d : String) (s : State) :
    CapExtends (GoodShot env.clock) Shot.name [n] s.screenshots
      ((take_screenshot env n d s).2).screenshots := by
  by_cases h : env.shotFail s.tick
  · exact capExtends_of_eq (by simp [take_screenshot, h])
  · refine ⟨[⟨n, d, env.clock s.tick ++ "_" ++ n ++ ".png", env.clock s.tick⟩],
      by simp [take_screenshot, h], by simp, ?_⟩
    intro r hr
    rw [List.mem_singleton] at hr
    exact ⟨s.tick, by rw [hr]⟩

theorem wd_gui_loads_extends (env : Env) (s : State) :
    CapExtends (GoodShot env.clock) Shot.name ["00_gui_loaded"] s.screenshots
      ((test_gui_loads env s).2).screenshots := by
  cases hg : env.getErr with
  | some e => exact capExtends_of_eq (by simp [test_gui_loads, hg])
  | none =>
      have h := wd_take_screenshot_extends env "00_gui_loaded" "GUI initial load" s
      by_cases hc : env.canvasCount > 0 <;>
        simpa [test_gui_loads, hg, hc] using h

theorem wd_controls_extends (env : Env) (s : State) :
    CapExtends (GoodShot env.clock) Shot.name ["ui_controls"] s.screenshots
      ((test_controls_visible env s).2).screenshots := by
  have h := wd_take_screenshot_extends env "ui_controls" "UI controls overview" s
  simpa [test_controls_visible] using h

theorem wd_load_structure_extends (env : Env) (stem fname : String) (s : State) :
    CapExtends (GoodShot env.clock) Shot.name ["structure_" ++ stem] s.screenshots
      ((test_load_structure env stem fname s).2).screenshots := by
  have h := wd_take_screenshot_extends env ("structure_" ++ stem)
    ("Loaded structure: " ++ fname) s
  by_cases h1 : env.fileInputs1 > 0
  · cases hk : env.sendKeysErr with
    | some e => exact capExtends_of_eq (by simp [test_load_structure, h1, hk])
    | none => simpa [test_load_structure, h1, hk] using h
  · cases hb : loadButton env.buttonTexts with
    | none => exact capExtends_of_eq (by simp [test_load_structure, h1, hb])
    | some b =>
        cases hcl : env.clickErr with
        | some e => exact capExtends_of_eq (by simp [test_load_structure, h1, hb, hcl])
        | none =>
            by_cases h2 : env.fileInputs2 > 0
            · cases hk : env.sendKeysErr with
              | some e =>
                  exact capExtends_of_eq (by simp [test_load_structure, h1, hb, hcl, h2, hk])
              | none => simpa [test_load_structure, h1, hb, hcl, h2, hk] using h
            · exact capExtends_of_eq (by simp [test_load_structure, h1, hb, hcl, h2])

theorem wd_rotation_extends (env : Env) (s : State) :
    CapExtends (GoodShot env.clock) Shot.name ["rotation_before", "rotation_after"]
      s.screenshots ((test_rotation env s).2).screenshots := by
  by_cases hc : env.canvasCount = 0
  · exact capExtends_of_eq (by simp [test_rotation, find_element_canvas, hc])
  · have hb := wd_take_screenshot_extends env "rotation_before" "Before rotation" s
    cases hd : env.dragErr with
    | some e =>
        simp only [test_rotation, find_element_canvas, hc, if_neg hc, hd]
        exact capExtends_mono (by decide) hb
    | none =>
        simp only [test_rotation, find_element_canvas, hc, if_neg hc, hd]
        exact capExtends_trans hb
          (wd_take_screenshot_extends env "rotation_after"
            "After rotation (drag 200x100)" ((take_screenshot env "rotation_before"
              "Before rotation" s).2))

theorem wd_runTests_extends (env : Env) (s : State) :
    CapExtends (GoodShot env.clock) Shot.name sessionNames s.screenshots
      (runTests env s).screenshots := by
  unfold runTests
  have hw : ∀ s2 : State,
      CapExtends (GoodShot env.clock) Shot.name ["structure_" ++ "water"]
        s2.screenshots
        ((if env.waterExists then
            (test_load_structure env "water" "water.xyz" s2).2 else s2)).screenshots := by
    intro s2
    by_cases h : env.waterExists
    · simpa [h] using wd_load_structure_extends env "water" "water.xyz" s2
    · simp only [h, if_neg]
      exact capExtends_mono (List.nil_sublist _) (capExtends_refl _ _ _ _)
  have hm : ∀ s3 : State,
      CapExtends (GoodShot env.clock) Shot.name ["structure_" ++ "methane"]
        s3.screenshots
        ((if env.methaneExists then
            (test_load_structure env "methane" "methane.xyz" s3).2 else s3)).screenshots := by
    intro s3
    by_cases h : env.methaneExists
    · simpa [h] using wd_load_structure_extends env "methane" "methane.xyz" s3
    · simp only [h, if_neg]
      exact capExtends_mono (List.nil_sublist _) (capExtends_refl _ _ _ _)
  refine capExtends_mono
    (show List.Sublist
      (["00_gui_loaded"] ++ (["ui_controls"] ++ (["structure_" ++ "water"] ++
        (["structure_" ++ "methane"] ++ ["rotation_before", "rotation_after"]))))
      sessionNames by decide) ?_
  exact capExtends_trans (wd_gui_loads_extends env s)
    (capExtends_trans (wd_controls_extends env _)
      (capExtends_trans (hw _)
        (capExtends_trans (hm _) (wd_rotation_extends env _))))

theorem wd_main_extends (env : Env) :
    CapExtends (GoodShot env.clock) Shot.name sessionNames []
      ((main env).state).screenshots := by
  by_cases h : env.setupOk
  · have h2 := wd_runTests_extends env initState
    simpa [main, h, generate_report, initState] using h2
  · exact capExtends_of_eq (by simp [main, h, initState])

theorem wd_files_pairwise (env : Env) (hc : ∀ k, (env.clock k).length = 15) :
    (((main env).state).screenshots.map Shot.file).Pairwise (fun a b => a ≠ b) := by
  obtain ⟨d, he, hsub, hgood⟩ := wd_main_extends env
  rw [List.nil_append] at he
  rw [he]
  have hnames : (d.map Shot.name).Pairwise (fun a b => a ≠ b) :=
    List.Pairwise.sublist hsub (by decide)
  rw [List.pairwise_map] at hnames
  refine pairwise_files_of_names Shot.file Shot.name d hnames ?_
  intro a ha b hb hfe
  obtain ⟨k1, e1⟩ := hgood a ha
  obtain ⟨k2, e2⟩ := hgood b hb
  rw [e1, e2] at hfe
  exact pathInj0 _ _ _ _ ((hc k1).trans (hc k2).symm) hfe

end WebDriverVisualTest

/-! ## AxiomVisualValidator: step, counter and screenshot lemmas -/

namespace AxiomVisualValidator

theorem vv_shotStep_ok (env : Env) (n d : String) :
    StepOK env [n] (shotStep env n d) := by
  intro s
  cases h : env.shotErr s.tick with
  | some e =>
      refine ⟨by simp [shotStep, take_screenshot, h, seqState, counters],
        capExtends_of_eq (by simp [shotStep, take_screenshot, h, seqState])⟩
  | none =>
      refine ⟨by simp [shotStep, take_screenshot, h, seqState, counters], ?_⟩
      refine ⟨[⟨n, d, "screenshots/" ++ (env.clock s.tick ++ "_" ++ n ++ ".png"),
          env.clock s.tick⟩],
        by simp [shotStep, take_screenshot, h, seqState], by simp, ?_⟩
      intro r hr
      rw [List.mem_singleton] at hr
      exact ⟨s.tick, by rw [hr]⟩

theorem vv_canvasStep_ok (env : Env) : StepOK env [] (canvasStep env) := by
  intro s
  by_cases h : env.canvasCount = 0 <;>
    exact ⟨by simp [canvasStep, find_element_canvas, h, seqState, counters],
      capExtends_of_eq (by simp [canvasStep, find_element_canvas, h, seqState])⟩

theorem vv_raiseOpt_ok (env : Env) (o : Option String) :
    StepOK env [] (raiseOpt o) := by
  intro s
  cases o with
  | some e =>
      exact ⟨by simp [raiseOpt, seqState], capExtends_of_eq (by simp [raiseOpt, seqState])⟩
  | none =>
      exact ⟨by simp [raiseOpt, seqState], capExtends_of_eq (by simp [raiseOpt, seqState])⟩

theorem vv_andThen_ok {env : Env} {ns1 ns2 : List String}
    {b1 b2 : State → Except (String × State) State}
    (h1 : StepOK env ns1 b1) (h2 : StepOK env ns2 b2) :
    StepOK env (ns1 ++ ns2) (andThen b1 b2) := by
  intro s
  cases hb : b1 s with
  | error p =>
      have ha := h1 s
      rw [hb] at ha
      simp only [seqState] at ha
      refine ⟨?_, ?_⟩
      · simp only [andThen, hb, seqState]
        exact ha.1
      · simp only [andThen, hb, seqState]
        exact capExtends_mono (List.sublist_append_left _ _) ha.2
  | ok s1 =>
      have ha := h1 s
      rw [hb] at ha
      simp only [seqState] at ha
      have hc := h2 s1
      refine ⟨?_, ?_⟩
      · simp only [andThen, hb]
        exact hc.1.trans ha.1
      · simp only [andThen, hb]
        exact capExtends_trans ha.2 hc.2

/-- Every runCase wrapper of a well-behaved body counts the run once, then
exactly one of pass or fail, and only appends well-formed screenshots. -/
theorem vv_runCase_spec {env : Env} {names : List String}
    {body : State → Except (String × State) State} (test : String)
    (hb : StepOK env names body) (s : State) :
    (runCase test body s).2.tests_run = s.tests_run + 1
    ∧ (((runCase test body s).2.tests_passed = s.tests_passed + 1
          ∧ (runCase test body s).2.tests_failed = s.tests_failed)
      ∨ ((runCase test body s).2.tests_passed = s.tests_passed
          ∧ (runCase test body s).2.tests_failed = s.tests_failed + 1))
    ∧ CapExtends (GoodShot env.clock) Shot.name names s.screenshots
        (runCase test body s).2.screenshots := by
  have h := hb { s with tests_run := s.tests_run + 1 }
  cases hres : body { s with tests_run := s.tests_run + 1 } with
  | error p =>
      rw [hres] at h
      simp only [seqState] at h
      obtain ⟨hc, he⟩ := h
      simp only [counters, Prod.mk.injEq] at hc
      refine ⟨?_, Or.inr ⟨?_, ?_⟩, ?_⟩
      · simpa [runCase, hres] using hc.1
      · simpa [runCase, hres] using hc.2.1
      · simp [runCase, hres]
        simpa using hc.2.2
      · simp only [runCase, hres]
        simpa using he
  | ok s1 =>
      rw [hres] at h
      simp only [seqState] at h
      obtain ⟨hc, he⟩ := h
      simp only [counters, Prod.mk.injEq] at hc
      refine ⟨?_, Or.inl ⟨?_, ?_⟩, ?_⟩
      · simpa [runCase, hres] using hc.1
      · simp [runCase, hres]
        simpa using hc.2.1
      · simpa [runCase, hres] using hc.2.2
      · simp only [runCase, hres]
        simpa using he

theorem vv_file_loading_spec (env : Env) (s : State) :
    (test_file_loading_xyz env s).2.tests_run = s.tests_run + 1
    ∧ (((test_file_loading_xyz env s).2.tests_passed = s.tests_passed + 1
          ∧ (test_file_loading_xyz env s).2.tests_failed = s.tests_failed)
      ∨ ((test_file_loading_xyz env s).2.tests_passed = s.tests_passed
          ∧ (test_file_loading_xyz env s).2.tests_failed = s.tests_failed + 1))
    ∧ CapExtends (GoodShot env.clock) Shot.name ["xyz_loading_initial"] s.screenshots
        (test_file_loading_xyz env s).2.screenshots :=
  vv_runCase_spec "XYZ File Loading"
    (vv_andThen_ok (vv_raiseOpt_ok env env.getErr)
      (vv_shotStep_ok env "xyz_loading_initial" "Initial state before loading XYZ")) s

theorem vv_rotation_spec (env : Env) (s : State) :
    (test_rotation env s).2.tests_run = s.tests_run + 1
    ∧ (((test_rotation env s).2.tests_passed = s.tests_passed + 1
          ∧ (test_rotation env s).2.tests_failed = s.tests_failed)
      ∨ ((test_rotation env s).2.tests_passed = s.tests_passed
          ∧ (test_rotation env s).2.tests_failed = s.tests_failed + 1))
    ∧ CapExtends (GoodShot env.clock) Shot.name ["rotation_before", "rotation_after"]
        s.screenshots (test_rotation env s).2.screenshots :=
  vv_runCase_spec "Rotation"
    (vv_andThen_ok (vv_shotStep_ok env "rotation_before" "Structure before rotation")
      (vv_andThen_ok (vv_canvasStep_ok env)
        (vv_andThen_ok (vv_raiseOpt_ok env env.dragErr)
          (vv_shotStep_ok env "rotation_after"
            "Structure after rotation (200px right, 100px down)")))) s

theorem vv_zoom_spec (env : Env) (s : State) :
    (test_zoom env s).2.tests_run = s.tests_run + 1
    ∧ (((test_zoom env s).2.tests_passed = s.tests_passed + 1
          ∧ (test_zoom env s).2.tests_failed = s.tests_failed)
      ∨ ((test_zoom env s).2.tests_passed = s.tests_passed
          ∧ (test_zoom env s).2.tests_failed = s.tests_failed + 1))
    ∧ CapExtends (GoodShot env.clock) Shot.name ["zoom_initial", "zoom_in", "zoom_out"]
        s.screenshots (test_zoom env s).2.screenshots :=
  vv_runCase_spec "Zoom"
    (vv_andThen_ok (vv_shotStep_ok env "zoom_initial" "Initial zoom level")
      (vv_andThen_ok (vv_canvasStep_ok env)
        (vv_andThen_ok (vv_raiseOpt_ok env env.zoomInErr)
          (vv_andThen_ok (vv_shotStep_ok env "zoom_in" "After zooming in (5 steps)")
            (vv_andThen_ok (vv_raiseOpt_ok env env.zoomOutErr)
              (vv_shotStep_ok env "zoom_out" "After zooming out (10 steps)")))))) s

theorem vv_background_spec (env : Env) (s : State) :
    (test_background_colors env s).2.tests_run = s.tests_run + 1
    ∧ (((test_background_colors env s).2.tests_passed = s.tests_passed + 1
          ∧ (test_background_colors env s).2.tests_failed = s.tests_failed)
      ∨ ((test_background_colors env s).2.tests_passed = s.tests_passed
          ∧ (test_background_colors env s).2.tests_failed = s.tests_failed + 1))
    ∧ CapExtends (GoodShot env.clock) Shot.name
        ["background_black", "background_white", "background_gray"]
        s.screenshots (test_background_colors env s).2.screenshots :=
  vv_runCase_spec "Background Colors"
    (vv_andThen_ok (vv_shotStep_ok env "background_black" "Background set to black")
      (vv_andThen_ok (vv_shotStep_ok env "background_white" "Background set to white")
        (vv_shotStep_ok env "background_gray" "Background set to gray"))) s

theorem vv_controls_spec (env : Env) (s : State) :
    (test_rendering_controls env s).2.tests_run = s.tests_run + 1
    ∧ (((test_rendering_controls env s).2.tests_passed = s.tests_passed + 1
          ∧ (test_rendering_controls env s).2.tests_failed = s.tests_failed)
      ∨ ((test_rendering_controls env s).2.tests_passed = s.tests_passed
          ∧ (test_rendering_controls env s).2.tests_failed = s.tests_failed + 1))
    ∧ CapExtends (GoodShot env.clock) Shot.name
        ["ssaa_off", "ssaa_on", "ao_off", "ao_on"]
        s.screenshots (test_rendering_controls env s).2.screenshots :=
  vv_runCase_spec "Rendering Controls"
    (vv_andThen_ok (vv_shotStep_ok env "ssaa_off" "SSAA disabled")
      (vv_andThen_ok (vv_shotStep_ok env "ssaa_on" "SSAA enabled")
        (vv_andThen_ok (vv_shotStep_ok env "ao_off" "Ambient Occlusion disabled")
          (vv_shotStep_ok env "ao_on" "Ambient Occlusion enabled")))) s

theorem vv_runTests_extends (env : Env) (s : State) :
    CapExtends (GoodShot env.clock) Shot.name sessionNames s.screenshots
      (runTests env s).screenshots := by
  unfold runTests
  refine capExtends_mono
    (show List.Sublist
      (["xyz_loading_initial"] ++ (["rotation_before", "rotation_after"] ++
        (["zoom_initial", "zoom_in", "zoom_out"] ++
          (["background_black", "background_white", "background_gray"] ++
            ["ssaa_off", "ssaa_on", "ao_off", "ao_on"]))))
      sessionNames by decide) ?_
  exact capExtends_trans (vv_file_loading_spec env s).2.2
    (capExtends_trans (vv_rotation_spec env _).2.2
      (capExtends_trans (vv_zoom_spec env _).2.2
        (capExtends_trans (vv_background_spec env _).2.2
          (vv_controls_spec env _).2.2)))

theorem vv_main_extends (env : Env) :
    CapExtends (GoodShot env.clock) Shot.name sessionNames []
      ((main env).state).screenshots := by
  by_cases h : env.startOk
  · have h2 := vv_runTests_extends env initState
    simpa [main, h, generate_report, initState] using h2
  · exact capExtends_of_eq (by simp [main, h, initState])

theorem vv_files_pairwise (env : Env) (hc : ∀ k, (env.clock k).length = 15) :
    (((main env).state).screenshots.map Shot.file).Pairwise (fun a b => a ≠ b) := by
  obtain ⟨d, he, hsub, hgood⟩ := vv_main_extends env
  rw [List.nil_append] at he
  rw [he]
  have hnames : (d.map Shot.name).Pairwise (fun a b => a ≠ b) :=
    List.Pairwise.sublist hsub (by decide)
  rw [List.pairwise_map] at hnames
  refine pairwise_files_of_names Shot.file Shot.name d hnames ?_
  intro a ha b hb hfe
  obtain ⟨k1, e1⟩ := hgood a ha
  obtain ⟨k2, e2⟩ := hgood b hb
  rw [e1, e2] at hfe
  exact pathInj "screenshots/" _ _ _ _ ((hc k1).trans (hc k2).symm) hfe

theorem vv_main_invariant (env : Env) :
    (main env).state.tests_run
      = (main env).state.tests_passed + (main env).state.tests_failed := by
  by_cases h : env.startOk
  · have h1 := vv_file_loading_spec env initState
    have h2 := vv_rotation_spec env (test_file_loading_xyz env initState).2
    have h3 := vv_zoom_spec env
      (test_rotation env (test_file_loading_xyz env initState).2).2
    have h4 := vv_background_spec env
      (test_zoom env (test_rotation env (test_file_loading_xyz env initState).2).2).2
    have h5 := vv_controls_spec env
      (test_background_colors env
        (test_zoom env (test_rotation env (test_file_loading_xyz env initState).2).2).2).2
    simp only [main, h, if_pos, generate_report, runTests]
    have hz : initState.tests_run = 0 ∧ initState.tests_passed = 0
        ∧ initState.tests_failed = 0 := ⟨rfl, rfl, rfl⟩
    rcases h1.2.1 with ⟨a1, b1⟩ | ⟨a1, b1⟩ <;>
      rcases h2.2.1 with ⟨a2, b2⟩ | ⟨a2, b2⟩ <;>
        rcases h3.2.1 with ⟨a3, b3⟩ | ⟨a3, b3⟩ <;>
          rcases h4.2.1 with ⟨a4, b4⟩ | ⟨a4, b4⟩ <;>
            rcases h5.2.1 with ⟨a5, b5⟩ | ⟨a5, b5⟩ <;>
              omega
  · simp only [main, h]
    rfl

end AxiomVisualValidator

/-! ## SimpleVisualTest: capture bookkeeping lemmas -/

namespace SimpleVisualTest

theorem sv_take_extends (env : Env) (n d : String) (s : State) :
    CapExtends (GoodRec env.clock) Rec.name [n] s.results
      ((take_screenshot env n d s).2).results := by
  cases h : env.scrot s.tick with
  | ok u =>
      refine ⟨[⟨n, d, some (env.clock s.tick ++ "_" ++ n ++ ".png"), none, true⟩],
        by simp [take_screenshot, h], by simp, ?_⟩
      intro r hr
      rw [List.mem_singleton] at hr
      exact Or.inr ⟨s.tick, by rw [hr]⟩
  | error e =>
      refine ⟨[⟨n, d, none, some e, false⟩],
        by simp [take_screenshot, h], by simp, ?_⟩
      intro r hr
      rw [List.mem_singleton] at hr
      exact Or.inl (by rw [hr])

theorem sv_captureAll_extends (env : Env) :
    ∀ (items : List (String × String)) (s : State),
      CapExtends (GoodRec env.clock) Rec.name (items.map Prod.fst) s.results
        (captureAll env items s).results := by
  intro items
  induction items with
  | nil =>
      intro s
      exact capExtends_of_eq (by simp [captureAll])
  | cons it rest ih =>
      intro s
      obtain ⟨n, d⟩ := it
      have h1 := sv_take_extends env n d s
      have h2 := ih (take_screenshot env n d s).2
      simpa [captureAll] using capExtends_trans h1 h2

theorem sv_main_extends (env : Env) :
    CapExtends (GoodRec env.clock) Rec.name (captureItems.map Prod.fst) []
      ((main env).state).results := by
  by_cases h : env.startOk
  · have h2 := sv_captureAll_extends env captureItems initState
    simpa [main, h, generate_report, run_visual_tests, initState] using h2
  · exact capExtends_of_eq (by simp [main, h, initState])

theorem sv_filterMap_pairwise (clock : Nat → String)
    (hlen : ∀ k, (clock k).length = 15) :
    ∀ l : List Rec, l.Pairwise (fun a b => a.name ≠ b.name) →
      (∀ r ∈ l, GoodRec clock r) →
      (l.filterMap Rec.file).Pairwise (fun a b => a ≠ b) := by
  intro l
  induction l with
  | nil =>
      intro _ _
      simp
  | cons r rest ih =>
      intro hp hg
      rw [List.pairwise_cons] at hp
      have hgr := hg r (List.mem_cons_self r rest)
      have htail := ih hp.2 (fun x hx => hg x (List.mem_cons_of_mem _ hx))
      rw [List.filterMap_cons]
      cases hfile : r.file with
      | none => exact htail
      | some f =>
          rw [List.pairwise_cons]
          refine ⟨?_, htail⟩
          intro g hgmem hfg
          obtain ⟨x, hxmem, hxfile⟩ := List.mem_filterMap.1 hgmem
          have hgx := hg x (List.mem_cons_of_mem _ hxmem)
          rcases hgr with h0 | ⟨k1, e1⟩
          · rw [hfile] at h0
            exact absurd h0 (by simp)
          rcases hgx with h0 | ⟨k2, e2⟩
          · rw [h0] at hxfile
            exact absurd hxfile (by simp)
          have hf : f = clock k1 ++ "_" ++ r.name ++ ".png" :=
            Option.some.inj (hfile.symm.trans e1)
          have hgq : g = clock k2 ++ "_" ++ x.name ++ ".png" :=
            Option.some.inj (hxfile.symm.trans e2)
          have : r.name = x.name := by
            refine pathInj0 _ _ _ _ ((hlen k1).trans (hlen k2).symm) ?_
            rw [← hf, ← hgq, hfg]
          exact hp.1 x hxmem this

theorem sv_files_pairwise (env : Env) (hc : ∀ k, (env.clock k).length = 15) :
    (((main env).state).results.filterMap Rec.file).Pairwise (fun a b => a ≠ b) := by
  obtain ⟨d, he, hsub, hgood⟩ := sv_main_extends env
  rw [List.nil_append] at he
  rw [he]
  have hnames : (d.map Rec.name).Pairwise (fun a b => a ≠ b) :=
    List.Pairwise.sublist hsub (by decide)
  rw [List.pairwise_map] at hnames
  exact sv_filterMap_pairwise env.clock hc d hnames hgood

end SimpleVisualTest

/-! ## DirectRenderTest: the FAIL-errors correspondence -/

namespace DirectRenderTest

theorem dr_runRenders_pres (clock : Nat → String) (failAt : Option Nat)
    (msg : String) :
    ∀ (items : List (Nat × String × String)) (s : State),
      (runRenders clock failAt msg items s).1.tests = s.tests
      ∧ (runRenders clock failAt msg items s).1.errors = s.errors := by
  intro items
  induction items with
  | nil =>
      intro s
      exact ⟨rfl, rfl⟩
  | cons it rest ih =>
      intro s
      obtain ⟨i, nm, desc⟩ := it
      by_cases h : failAt = some i
      · simp [runRenders, h]
      · simpa [runRenders, h] using ih _

theorem dr_finishTest_inv (test_name : String) (p : State × Option String)
    (h : Inv p.1) : Inv (finishTest test_name p).2 := by
  obtain ⟨h1, h2⟩ := h
  cases hp : p.2 with
  | some e =>
      constructor
      · simp only [finishTest, hp, failCount, List.countP_append]
        simp [failCount] at h1
        simp [h1]
      · simp only [finishTest, hp, errorCount, List.countP_append]
        simp [errorCount] at h2
        simpa using h2
  | none =>
      constructor
      · simp only [finishTest, hp, failCount, List.countP_append]
        simp [failCount] at h1
        simp [h1]
      · simp only [finishTest, hp, errorCount, List.countP_append]
        simp [errorCount] at h2
        simpa using h2

theorem dr_case_inv (clock : Nat → String) (failAt : Option Nat)
    (msg test_name : String) (items : List (Nat × String × String)) (s : State)
    (h : Inv s) :
    Inv (finishTest test_name (runRenders clock failAt msg items s)).2 := by
  refine dr_finishTest_inv test_name _ ?_
  have hp := dr_runRenders_pres clock failAt msg items s
  constructor
  · rw [hp.2]
    show _ = failCount (runRenders clock failAt msg items s).1
    unfold failCount
    rw [hp.1]
    exact h.1
  · show errorCount (runRenders clock failAt msg items s).1 = 0
    unfold errorCount
    rw [hp.1]
    exact h.2

theorem dr_main_inv (env : Env) : Inv (main env).state := by
  have h0 : Inv initState := ⟨rfl, rfl⟩
  have h1 := dr_case_inv env.clock env.waterFailAt env.waterMsg
    "Render Water Molecule" [(0, "water_default", "Water molecule - default view")]
    initState h0
  have h2 := dr_case_inv env.clock env.rotationFailAt env.rotationMsg
    "Test Rotation (Different Camera Angles)" rotationItems _ h1
  have h3 := dr_case_inv env.clock env.zoomFailAt env.zoomMsg
    "Test Zoom (Different Camera Distances)" zoomItems _ h2
  have h4 := dr_case_inv env.clock env.bgFailAt env.bgMsg
    "Test Background Colors" bgItems _ h3
  simpa [main, generate_report, runAll, test_simple_water, test_rotation,
    test_zoom, test_background_colors] using h4

end DirectRenderTest


/-! ## The claims -/

/-- C1: the claim states that every orchestration run exits 0 exactly when no
ERROR or FAIL outcome was recorded.  That fails on webdriver_visual_test.py,
whose main returns 0 whenever driver setup succeeded, regardless of recorded
outcomes (see the counterexample); this amended theorem states what the code
does: webdriver_visual_test exits 1 exactly on setup failure and 0 otherwise,
while direct_render_test exits 0 exactly when no FAIL outcome was recorded,
and it never records an ERROR outcome. -/
theorem claim_C1_exit_signal :
    (∀ env : WebDriverVisualTest.Env,
        (WebDriverVisualTest.main env).exitCode = if env.setupOk then 0 else 1)
    ∧ (∀ env : DirectRenderTest.Env,
        ((DirectRenderTest.main env).exitCode = 0 ↔
          DirectRenderTest.failCount (DirectRenderTest.main env).state = 0)
        ∧ DirectRenderTest.errorCount (DirectRenderTest.main env).state = 0) := by
  constructor
  · intro env
    by_cases h : env.setupOk <;> simp [WebDriverVisualTest.main, h]
  · intro env
    have hinv := DirectRenderTest.dr_main_inv env
    refine ⟨?_, hinv.2⟩
    have he : (DirectRenderTest.main env).exitCode
        = if (DirectRenderTest.main env).state.errors.length = 0 then 0 else 1 := rfl
    rw [he, ← hinv.1]
    by_cases h : (DirectRenderTest.main env).state.errors.length = 0 <;> simp [h]

/-- C1 counterexample: a webdriver run in which test_gui_loads raises (so an
ERROR outcome is recorded) still exits with code 0. -/
theorem claim_C1_cex :
    (WebDriverVisualTest.main (WebDriverVisualTest.envGetErr "boom")).exitCode = 0
    ∧ (WebDriverVisualTest.main
        (WebDriverVisualTest.envGetErr "boom")).state.tests.countP
        (fun t => t.result == "ERROR") = 1 := by
  exact ⟨rfl, by decide⟩

/-- C2: the claim states that every exception raised in a Test Case body is
caught and becomes exactly one outcome with status ERROR carrying the
message.  The catching and the exactly-one-record part hold everywhere, but
the recorded form differs by script (see the counterexample): webdriver
tests record ERROR with the message in the outcome; direct_render tests
record FAIL and put the message in the separate errors list; visual_validator
tests increment the failed counter and put the message in the bugs list. -/
theorem claim_C2_exception_capture :
    (∀ (e : String) (s : WebDriverVisualTest.State),
      (WebDriverVisualTest.test_gui_loads (WebDriverVisualTest.envGetErr e) s).2.tests
        = s.tests ++ [⟨"GUI Loading", "ERROR", some e, none, none, none⟩])
    ∧ (∀ (e : String) (s : DirectRenderTest.State),
      (DirectRenderTest.test_simple_water (DirectRenderTest.envWaterErr e) s).2.tests
          = s.tests ++ [⟨"Render Water Molecule", "FAIL"⟩]
      ∧ (DirectRenderTest.test_simple_water (DirectRenderTest.envWaterErr e) s).2.errors
          = s.errors ++ [⟨"Render Water Molecule", e⟩])
    ∧ (∀ (e : String) (s : AxiomVisualValidator.State),
      (AxiomVisualValidator.test_file_loading_xyz (AxiomVisualValidator.envGetErr e) s).2
        = { s with tests_run := s.tests_run + 1,
                   tests_failed := s.tests_failed + 1,
                   bugs := s.bugs ++ [⟨"XYZ File Loading", e⟩] }) := by
  refine ⟨fun e s => ?_, fun e s => ⟨?_, ?_⟩, fun e s => ?_⟩ <;> rfl

/-- C2 counterexample: in direct_render_test, an exception inside
test_simple_water is recorded as a FAIL outcome with no error field, not as
an ERROR outcome; the message lands in the separate errors list. -/
theorem claim_C2_cex :
    (DirectRenderTest.test_simple_water (DirectRenderTest.envWaterErr "boom")
        DirectRenderTest.initState).2.tests
      = [⟨"Render Water Molecule", "FAIL"⟩]
    ∧ ("FAIL" : String) ≠ "ERROR"
    ∧ (DirectRenderTest.test_simple_water (DirectRenderTest.envWaterErr "boom")
        DirectRenderTest.initState).2.errors
      = [⟨"Render Water Molecule", "boom"⟩] :=
  ⟨rfl, by decide, rfl⟩

/-- C3: in every run of each of the three orchestrators that own an
external resource, the release path (stop_driver, stop_gui, close_driver in
a finally clause) executes exactly once, whatever the environment does —
including runs where a test body raises internally and runs where startup
itself fails. -/
theorem claim_C3_cleanup_once :
    (∀ env : AxiomVisualValidator.Env, (AxiomVisualValidator.main env).cleanups = 1)
    ∧ (∀ env : SimpleVisualTest.Env, (SimpleVisualTest.main env).cleanups = 1)
    ∧ (∀ env : WebDriverVisualTest.Env, (WebDriverVisualTest.main env).cleanups = 1) := by
  refine ⟨fun env => ?_, fun env => ?_, fun env => ?_⟩
  · by_cases h : env.startOk <;> simp [AxiomVisualValidator.main, h]
  · by_cases h : env.startOk <;> simp [SimpleVisualTest.main, h]
  · by_cases h : env.setupOk <;> simp [WebDriverVisualTest.main, h]

/-- C4: the claim states that report generation on an empty session succeeds
with total=0, passed=0, failed=0.  axiom_render_test.generate_report divides
passed by total for its success-rate line, so on the empty session it raises
ZeroDivisionError instead of producing a report; direct_render_test's summary
of the empty session does give total=0, passed=0, failed=0. -/
theorem claim_C4_empty_report_crash :
    AxiomRenderTest.generate_report AxiomRenderTest.emptyState "2025-01-01 00:00:00"
      = Except.error "ZeroDivisionError: division by zero"
    ∧ (DirectRenderTest.summary DirectRenderTest.initState).total = 0
    ∧ (DirectRenderTest.summary DirectRenderTest.initState).passed = 0
    ∧ (DirectRenderTest.summary DirectRenderTest.initState).failed = 0 :=
  ⟨rfl, rfl, rfl, rfl⟩

/-- C5: the claim states that element lookup never raises on a missing
element and that every step built on the NotFound degrades to FAIL plus a
DefectReport, never ERROR.  That holds for the find_elements probes of
test_gui_loads and test_load_structure, but test_rotation uses the singular
find_element, which raises on no match and is recorded as ERROR with no bug
entry (see the counterexample).  This amended theorem states the three
behaviours. -/
theorem claim_C5_notfound_degrade :
    (∀ s : WebDriverVisualTest.State,
      (WebDriverVisualTest.test_gui_loads WebDriverVisualTest.envNoCanvas s).2.tests
          = s.tests ++ [⟨"GUI Loading", "FAIL", none, none, none, none⟩]
      ∧ (WebDriverVisualTest.test_gui_loads WebDriverVisualTest.envNoCanvas s).2.bugs
          = s.bugs ++ [⟨"GUI Loading", "No canvas element found in DOM"⟩])
    ∧ (∀ s : WebDriverVisualTest.State,
      (WebDriverVisualTest.test_load_structure WebDriverVisualTest.envNoInput
          "water" "water.xyz" s).2.tests
          = s.tests ++ [⟨"Load Structure: water.xyz", "FAIL", none, none, none, none⟩]
      ∧ (WebDriverVisualTest.test_load_structure WebDriverVisualTest.envNoInput
          "water" "water.xyz" s).2.bugs
          = s.bugs ++ [⟨"Load Structure: water.xyz", "No file input element found"⟩])
    ∧ (∀ s : WebDriverVisualTest.State,
      (WebDriverVisualTest.test_rotation WebDriverVisualTest.envNoCanvas s).2.tests
          = s.tests ++ [⟨"Rotation", "ERROR", some "no such element: canvas",
              none, none, none⟩]
      ∧ (WebDriverVisualTest.test_rotation WebDriverVisualTest.envNoCanvas s).2.bugs
          = s.bugs) := by
  refine ⟨fun s => ⟨?_, ?_⟩, fun s => ⟨?_, ?_⟩, fun s => ⟨?_, ?_⟩⟩ <;> rfl

/-- C5 counterexample: with no canvas in the page, the lookup used by
test_rotation raises instead of returning an empty result, and the test
records an ERROR outcome with no DefectReport entry. -/
theorem claim_C5_cex :
    WebDriverVisualTest.find_element_canvas WebDriverVisualTest.envNoCanvas
      = Except.error "no such element: canvas"
    ∧ (WebDriverVisualTest.test_rotation WebDriverVisualTest.envNoCanvas
        WebDriverVisualTest.initState).2.tests
      = [⟨"Rotation", "ERROR", some "no such element: canvas", none, none, none⟩]
    ∧ (WebDriverVisualTest.test_rotation WebDriverVisualTest.envNoCanvas
        WebDriverVisualTest.initState).2.bugs = [] :=
  ⟨rfl, rfl, rfl⟩


/-- C6: for every session that reaches the reporting phase, the report
generator runs exactly once and the summary counts it writes equal the
cardinalities of the aggregated collections at the moment of reporting:
total = number of recorded outcomes, passed/failed/errored = sizes of the
subsets of outcomes with that status, screenshots captured = number of
screenshot records (and for direct_render_test, images generated = number of
render records). -/
theorem claim_C6_report_consistency :
    (∀ env : WebDriverVisualTest.Env, env.setupOk = true →
      (WebDriverVisualTest.main env).reports = 1
      ∧ ("- Total Tests: "
          ++ toString (WebDriverVisualTest.main env).state.tests.length ++ "\n")
          ∈ (WebDriverVisualTest.main env).doc
      ∧ ("- Passed: " ++ toString ((WebDriverVisualTest.main env).state.tests.filter
            (fun t => t.result == "PASS")).length ++ "\n")
          ∈ (WebDriverVisualTest.main env).doc
      ∧ ("- Failed: " ++ toString ((WebDriverVisualTest.main env).state.tests.filter
            (fun t => t.result == "FAIL")).length ++ "\n")
          ∈ (WebDriverVisualTest.main env).doc
      ∧ ("- Errors: " ++ toString ((WebDriverVisualTest.main env).state.tests.filter
            (fun t => t.result == "ERROR")).length ++ "\n")
          ∈ (WebDriverVisualTest.main env).doc
      ∧ ("- Screenshots Captured: "
          ++ toString (WebDriverVisualTest.main env).state.screenshots.length ++ "\n\n")
          ∈ (WebDriverVisualTest.main env).doc)
    ∧ (∀ env : DirectRenderTest.Env,
      (DirectRenderTest.main env).reports = 1
      ∧ ("- Total Tests: "
          ++ toString (DirectRenderTest.main env).state.tests.length ++ "\n")
          ∈ (DirectRenderTest.main env).doc
      ∧ ("- Passed: " ++ toString ((DirectRenderTest.main env).state.tests.filter
            (fun t => t.result == "PASS")).length ++ "\n")
          ∈ (DirectRenderTest.main env).doc
      ∧ ("- Failed: " ++ toString ((DirectRenderTest.main env).state.tests.filter
            (fun t => t.result == "FAIL")).length ++ "\n")
          ∈ (DirectRenderTest.main env).doc
      ∧ ("- Images Generated: "
          ++ toString (DirectRenderTest.main env).state.renders.length ++ "\n\n")
          ∈ (DirectRenderTest.main env).doc)
    ∧ (∀ env : AxiomVisualValidator.Env, env.startOk = true →
      (AxiomVisualValidator.main env).reports = 1
      ∧ ("- Tests Run: "
          ++ toString (AxiomVisualValidator.main env).state.tests_run ++ "\n")
          ∈ (AxiomVisualValidator.main env).doc
      ∧ ("- Screenshots Captured: "
          ++ toString (AxiomVisualValidator.main env).state.screenshots.length ++ "\n\n")
          ∈ (AxiomVisualValidator.main env).doc) := by
  refine ⟨fun env h => ?_, fun env => ?_, fun env h => ?_⟩
  · simp only [WebDriverVisualTest.main, h, if_pos, WebDriverVisualTest.generate_report]
    refine ⟨by trivial, ?_, ?_, ?_, ?_, ?_⟩ <;>
      simp [WebDriverVisualTest.doc, WebDriverVisualTest.docBody,
        WebDriverVisualTest.summary, ← List.countP_eq_length_filter]
  · simp only [DirectRenderTest.main, DirectRenderTest.generate_report]
    refine ⟨by trivial, ?_, ?_, ?_, ?_⟩ <;>
      simp [DirectRenderTest.doc, DirectRenderTest.docBody,
        DirectRenderTest.summary, ← List.countP_eq_length_filter]
  · simp only [AxiomVisualValidator.main, h, if_pos,
      AxiomVisualValidator.generate_report]
    refine ⟨by trivial, ?_, ?_⟩ <;>
      simp [AxiomVisualValidator.doc, AxiomVisualValidator.docBody]

/-- C6 witness: the reporting phase is reached and the report generator runs
exactly once in the benign runs of the three scripts. -/
theorem claim_C6_witness :
    (WebDriverVisualTest.main WebDriverVisualTest.benignEnv).reports = 1
    ∧ (DirectRenderTest.main DirectRenderTest.benignEnv).reports = 1
    ∧ (AxiomVisualValidator.main AxiomVisualValidator.benignEnv).reports = 1 :=
  ⟨(claim_C6_report_consistency.1 WebDriverVisualTest.benignEnv rfl).1,
   (claim_C6_report_consistency.2.1 DirectRenderTest.benignEnv).1,
   (claim_C6_report_consistency.2.2 AxiomVisualValidator.benignEnv rfl).1⟩

/-- C7: the claim states that two invocations of generate_report on equal
session contents produce identical documents except for the generation
timestamp line.  webdriver_visual_test's report also re-reads the structures
directory, so equal session contents do not suffice (see the counterexample);
this amended theorem states determinism given the session contents plus, for
webdriver_visual_test, the structures listing: the documents then agree at
every chunk except possibly the timestamp chunk (index 1), and generate_report
leaves the session state unchanged in both scripts. -/
theorem claim_C7_report_determinism :
    (∀ (s : WebDriverVisualTest.State) (fs : List WebDriverVisualTest.FsEntry)
        (t1 t2 : String),
        AgreeExceptGenLine (WebDriverVisualTest.doc s fs t1)
          (WebDriverVisualTest.doc s fs t2))
    ∧ (∀ (s : DirectRenderTest.State) (t1 t2 : String),
        AgreeExceptGenLine (DirectRenderTest.doc s t1) (DirectRenderTest.doc s t2))
    ∧ (∀ (env : WebDriverVisualTest.Env) (s : WebDriverVisualTest.State),
        (WebDriverVisualTest.generate_report env s).1 = s)
    ∧ (∀ (env : DirectRenderTest.Env) (s : DirectRenderTest.State),
        (DirectRenderTest.generate_report env s).1 = s) := by
  refine ⟨fun s fs t1 t2 => ⟨rfl, ?_⟩, fun s t1 t2 => ⟨rfl, ?_⟩,
    fun env s => rfl, fun env s => rfl⟩ <;>
  · intro i hi
    cases i with
    | zero => rfl
    | succ j =>
        cases j with
        | zero => exact absurd rfl hi
        | succ k => rfl

/-- C7 counterexample: two generate_report invocations on the same (empty)
session contents and the same timestamp, but different structures-directory
contents, produce documents that differ beyond the timestamp line. -/
theorem claim_C7_cex :
    ¬ AgreeExceptGenLine
        (WebDriverVisualTest.doc WebDriverVisualTest.initState [] "2025-01-01 00:00:00")
        (WebDriverVisualTest.doc WebDriverVisualTest.initState
          [⟨"water.xyz", ".xyz", "3"⟩] "2025-01-01 00:00:00") :=
  fun h => absurd h.1 (by decide)


/-- C8: in every run of each of the three screenshot-capturing scripts, and
for every clock whose second-resolution timestamps have their fixed 15
characters (so in particular for two captures landing in the same clock
second), the storage paths of the recorded screenshot records are pairwise
distinct: every path is a timestamp plus the logical name, and the logical
names each session actually uses are pairwise distinct. -/
theorem claim_C8_unique_paths :
    ∀ (ew : WebDriverVisualTest.Env) (ev : AxiomVisualValidator.Env)
      (es : SimpleVisualTest.Env),
      (∀ k, (ew.clock k).length = 15) →
      (∀ k, (ev.clock k).length = 15) →
      (∀ k, (es.clock k).length = 15) →
      ((WebDriverVisualTest.main ew).state.screenshots.map
          WebDriverVisualTest.Shot.file).Pairwise (fun a b => a ≠ b)
      ∧ ((AxiomVisualValidator.main ev).state.screenshots.map
          AxiomVisualValidator.Shot.file).Pairwise (fun a b => a ≠ b)
      ∧ ((SimpleVisualTest.main es).state.results.filterMap
          SimpleVisualTest.Rec.file).Pairwise (fun a b => a ≠ b) :=
  fun ew ev es hw hv hs =>
    ⟨WebDriverVisualTest.wd_files_pairwise ew hw,
     AxiomVisualValidator.vv_files_pairwise ev hv,
     SimpleVisualTest.sv_files_pairwise es hs⟩

/-- C8 witness: the benign runs of the three scripts, under the constant
clock 20250101_000000 (every capture in the same clock second), still give
pairwise distinct storage paths. -/
theorem claim_C8_witness :
    ((WebDriverVisualTest.main WebDriverVisualTest.benignEnv).state.screenshots.map
        WebDriverVisualTest.Shot.file).Pairwise (fun a b => a ≠ b)
    ∧ ((AxiomVisualValidator.main AxiomVisualValidator.benignEnv).state.screenshots.map
        AxiomVisualValidator.Shot.file).Pairwise (fun a b => a ≠ b)
    ∧ ((SimpleVisualTest.main SimpleVisualTest.benignEnv).state.results.filterMap
        SimpleVisualTest.Rec.file).Pairwise (fun a b => a ≠ b) :=
  claim_C8_unique_paths WebDriverVisualTest.benignEnv AxiomVisualValidator.benignEnv
    SimpleVisualTest.benignEnv (fun _ => rfl) (fun _ => rfl) (fun _ => rfl)

/-- C9: SimpleVisualTest.take_screenshot is total over every capture
outcome; it always appends exactly one result record; on a capture failure
it returns none and the record carries success=false and the error message;
on success it returns the file path and the record carries success=true and
the file name. -/
theorem claim_C9_take_screenshot_total :
    ∀ (env : SimpleVisualTest.Env) (n d : String) (s : SimpleVisualTest.State),
      ((SimpleVisualTest.take_screenshot env n d s).2).results.length
        = s.results.length + 1
      ∧ (match env.scrot s.tick with
         | Except.ok _ =>
             (SimpleVisualTest.take_screenshot env n d s).1
               = some ("screenshots/" ++ (env.clock s.tick ++ "_" ++ n ++ ".png"))
             ∧ ((SimpleVisualTest.take_screenshot env n d s).2).results
               = s.results
                 ++ [⟨n, d, some (env.clock s.tick ++ "_" ++ n ++ ".png"), none, true⟩]
         | Except.error e =>
             (SimpleVisualTest.take_screenshot env n d s).1 = none
             ∧ ((SimpleVisualTest.take_screenshot env n d s).2).results
               = s.results ++ [⟨n, d, none, some e, false⟩]) := by
  intro env n d s
  cases h : env.scrot s.tick with
  | ok u =>
      refine ⟨?_, ?_⟩ <;> simp [SimpleVisualTest.take_screenshot, h]
  | error e =>
      refine ⟨?_, ?_⟩ <;> simp [SimpleVisualTest.take_screenshot, h]

/-- C10: each of the five AxiomVisualValidator test methods increments
tests_run by exactly one and exactly one of tests_passed or tests_failed by
exactly one, so each preserves the invariant tests_run = tests_passed +
tests_failed, and after the full run of main starting from the zeroed
counters the invariant holds on the results state. -/
theorem claim_C10_counter_invariant :
    (∀ (env : AxiomVisualValidator.Env) (s : AxiomVisualValidator.State),
      (AxiomVisualValidator.test_file_loading_xyz env s).2.tests_run = s.tests_run + 1
      ∧ (((AxiomVisualValidator.test_file_loading_xyz env s).2.tests_passed
              = s.tests_passed + 1
            ∧ (AxiomVisualValidator.test_file_loading_xyz env s).2.tests_failed
              = s.tests_failed)
        ∨ ((AxiomVisualValidator.test_file_loading_xyz env s).2.tests_passed
              = s.tests_passed
            ∧ (AxiomVisualValidator.test_file_loading_xyz env s).2.tests_failed
              = s.tests_failed + 1))
      ∧ ((AxiomVisualValidator.test_file_loading_xyz env s).2.tests_run
            = (AxiomVisualValidator.test_file_loading_xyz env s).2.tests_passed
              + (AxiomVisualValidator.test_file_loading_xyz env s).2.tests_failed
          ↔ s.tests_run = s.tests_passed + s.tests_failed))
    ∧ (∀ (env : AxiomVisualValidator.Env) (s : AxiomVisualValidator.State),
      (AxiomVisualValidator.test_rotation env s).2.tests_run = s.tests_run + 1
      ∧ (((AxiomVisualValidator.test_rotation env s).2.tests_passed = s.tests_passed + 1
            ∧ (AxiomVisualValidator.test_rotation env s).2.tests_failed = s.tests_failed)
        ∨ ((AxiomVisualValidator.test_rotation env s).2.tests_passed = s.tests_passed
            ∧ (AxiomVisualValidator.test_rotation env s).2.tests_failed
              = s.tests_failed + 1))
      ∧ ((AxiomVisualValidator.test_rotation env s).2.tests_run
            = (AxiomVisualValidator.test_rotation env s).2.tests_passed
              + (AxiomVisualValidator.test_rotation env s).2.tests_failed
          ↔ s.tests_run = s.tests_passed + s.tests_failed))
    ∧ (∀ (env : AxiomVisualValidator.Env) (s : AxiomVisualValidator.State),
      (AxiomVisualValidator.test_zoom env s).2.tests_run = s.tests_run + 1
      ∧ (((AxiomVisualValidator.test_zoom env s).2.tests_passed = s.tests_passed + 1
            ∧ (AxiomVisualValidator.test_zoom env s).2.tests_failed = s.tests_failed)
        ∨ ((AxiomVisualValidator.test_zoom env s).2.tests_passed = s.tests_passed
            ∧ (AxiomVisualValidator.test_zoom env s).2.tests_failed
              = s.tests_failed + 1))
      ∧ ((AxiomVisualValidator.test_zoom env s).2.tests_run
            = (AxiomVisualValidator.test_zoom env s).2.tests_passed
              + (AxiomVisualValidator.test_zoom env s).2.tests_failed
          ↔ s.tests_run = s.tests_passed + s.tests_failed))
    ∧ (∀ (env : AxiomVisualValidator.Env) (s : AxiomVisualValidator.State),
      (AxiomVisualValidator.test_background_colors env s).2.tests_run = s.tests_run + 1
      ∧ (((AxiomVisualValidator.test_background_colors env s).2.tests_passed
              = s.tests_passed + 1
            ∧ (AxiomVisualValidator.test_background_colors env s).2.tests_failed
              = s.tests_failed)
        ∨ ((AxiomVisualValidator.test_background_colors env s).2.tests_passed
              = s.tests_passed
            ∧ (AxiomVisualValidator.test_background_colors env s).2.tests_failed
              = s.tests_failed + 1))
      ∧ ((AxiomVisualValidator.test_background_colors env s).2.tests_run
            = (AxiomVisualValidator.test_background_colors env s).2.tests_passed
              + (AxiomVisualValidator.test_background_colors env s).2.tests_failed
          ↔ s.tests_run = s.tests_passed + s.tests_failed))
    ∧ (∀ (env : AxiomVisualValidator.Env) (s : AxiomVisualValidator.State),
      (AxiomVisualValidator.test_rendering_controls env s).2.tests_run = s.tests_run + 1
      ∧ (((AxiomVisualValidator.test_rendering_controls env s).2.tests_passed
              = s.tests_passed + 1
            ∧ (AxiomVisualValidator.test_rendering_controls env s).2.tests_failed
              = s.tests_failed)
        ∨ ((AxiomVisualValidator.test_rendering_controls env s).2.tests_passed
              = s.tests_passed
            ∧ (AxiomVisualValidator.test_rendering_controls env s).2.tests_failed
              = s.tests_failed + 1))
      ∧ ((AxiomVisualValidator.test_rendering_controls env s).2.tests_run
            = (AxiomVisualValidator.test_rendering_controls env s).2.tests_passed
              + (AxiomVisualValidator.test_rendering_controls env s).2.tests_failed
          ↔ s.tests_run = s.tests_passed + s.tests_failed))
    ∧ (∀ env : AxiomVisualValidator.Env,
        (AxiomVisualValidator.main env).state.tests_run
          = (AxiomVisualValidator.main env).state.tests_passed
            + (AxiomVisualValidator.main env).state.tests_failed) := by
  refine ⟨fun env s => ?_, fun env s => ?_, fun env s => ?_, fun env s => ?_,
    fun env s => ?_, AxiomVisualValidator.vv_main_invariant⟩
  · have h := AxiomVisualValidator.vv_file_loading_spec env s
    exact ⟨h.1, h.2.1, by rcases h.2.1 with ⟨a, b⟩ | ⟨a, b⟩ <;> (have h9 := h.1; omega)⟩
  · have h := AxiomVisualValidator.vv_rotation_spec env s
    exact ⟨h.1, h.2.1, by rcases h.2.1 with ⟨a, b⟩ | ⟨a, b⟩ <;> (have h9 := h.1; omega)⟩
  · have h := AxiomVisualValidator.vv_zoom_spec env s
    exact ⟨h.1, h.2.1, by rcases h.2.1 with ⟨a, b⟩ | ⟨a, b⟩ <;> (have h9 := h.1; omega)⟩
  · have h := AxiomVisualValidator.vv_background_spec env s
    exact ⟨h.1, h.2.1, by rcases h.2.1 with ⟨a, b⟩ | ⟨a, b⟩ <;> (have h9 := h.1; omega)⟩
  · have h := AxiomVisualValidator.vv_controls_spec env s
    exact ⟨h.1, h.2.1, by rcases h.2.1 with ⟨a, b⟩ | ⟨a, b⟩ <;> (have h9 := h.1; omega)⟩

end AxGui
